import Mathlib

/-!
Shallow embedding of the Gandiva `Projector` control/data plane
(`cpp/src/gandiva/projector.cc`): cache-key fingerprinting and sharding,
build/cache orchestration (`Projector::Make`), evaluation-argument
validation, buffer-shape planning (`AllocArrayData`) and buffer-capacity
validation (`ValidateArrayDataCapacity`).

External collaborators that are part of the repository but not in the
sampled sources (the `arrow` bit utilities, `Schema`, `Configuration`,
expression canonical form, `hash_combine`, the generic keyed cache, the
LLVM backend) are modelled from the spec as pure functions or as
explicit function-valued parameters.
-/

namespace GandivaProjector

/-- Modelled from the spec: `arrow::bit_util::BytesForBits` is not under the
sampled sources; the spec gives the formula `ceil(bits / 8)` bytes. -/
def BytesForBits (bits : Nat) : Nat :=
  (bits + 7) / 8

/-- Classification of output logical types as used by `projector.cc`:
`arrow::is_binary_like` (variable-length binary/text), `arrow::is_primitive`
(with `BOOL` singled out for zero-initialisation) or `DECIMAL` (fixed width),
anything else unsupported. -/
inductive ArrowType
  | boolean
  | fixedWidth (bitWidth : Nat)
  | binaryLike
  | unsupported
deriving DecidableEq, Repr

def ArrowType.isBinaryLike : ArrowType → Bool
  | .binaryLike => true
  | _ => false

def ArrowType.isPrimitiveOrDecimal : ArrowType → Bool
  | .boolean => true
  | .fixedWidth _ => true
  | _ => false

/-- `FixedWidthType::bit_width()`; `BOOL` is the single-bit packed type. -/
def ArrowType.bitWidth : ArrowType → Nat
  | .boolean => 1
  | .fixedWidth w => w
  | _ => 0

/-- An `arrow::Buffer` as seen by this core: a byte capacity and whether the
buffer is resizable (`dynamic_cast<arrow::ResizableBuffer*>` succeeds). -/
structure Buffer where
  capacity : Nat
  resizable : Bool
deriving DecidableEq, Repr

/-- `Projector::AllocArrayData` (self-allocating path): plans the buffer set
for one output column of type `ty` with `n` rows.  The bitmap buffer is
allocated with `AllocateBuffer` (not resizable), binary-like types get an
offsets buffer, and the data buffer is always allocated with
`AllocateResizableBuffer` (its length is `0` for variable-length types; the
`BOOL` memset only zero-fills and does not change any size). -/
def AllocArrayData (ty : ArrowType) (n : Nat) : Except String (List Buffer) :=
  let bitmap : Buffer := ⟨BytesForBits n, false⟩
  let withOffsets : List Buffer :=
    if ty.isBinaryLike then
      [bitmap, ⟨BytesForBits ((n + 1) * 32), false⟩]
    else
      [bitmap]
  if ty.isPrimitiveOrDecimal then
    Except.ok (withOffsets ++ [⟨BytesForBits (n * ty.bitWidth), true⟩])
  else if ty.isBinaryLike then
    Except.ok (withOffsets ++ [⟨0, true⟩])
  else
    Except.error "Unsupported output data type"

/-- `Projector::ValidateArrayDataCapacity`: checks a caller-supplied buffer
set against the minimum shape for type `ty` and `n` rows.  The C++ indexes
`array_data.buffers` with unchecked `operator[]`; an index past the end of
the vector is undefined behaviour, which the model makes explicit by
returning `none` exactly when such an access is reached. -/
def ValidateArrayDataCapacity (bufs : List Buffer) (ty : ArrowType) (n : Nat) :
    Option (Except String Unit) :=
  if bufs.length < 2 then
    some (.error "ArrayData must have at least 2 buffers")
  else
    match bufs[0]? with
    | none => none
    | some b0 =>
      if b0.capacity < BytesForBits n then
        some (.error "Bitmap buffer too small")
      else if ty.isBinaryLike then
        match bufs[1]? with
        | none => none
        | some b1 =>
          if b1.capacity < BytesForBits ((n + 1) * 32) then
            some (.error "offsets buffer too small")
          else
            match bufs[2]? with
            | none => none
            | some b2 =>
              if b2.resizable then some (.ok ())
              else some (.error "data buffer for varlen output vectors must be resizable")
      else if ty.isPrimitiveOrDecimal then
        match bufs[1]? with
        | none => none
        | some b1 =>
          if b1.capacity < BytesForBits (n * ty.bitWidth) then
            some (.error "Data buffer too small")
          else
            some (.ok ())
      else
        some (.error "Unsupported output data type")

/-! ## Cache-key data model -/

/-- Modelled from the spec: a schema field is a (name, logical type) pair;
nullability is part of the structural identity Arrow compares. -/
structure Field where
  name : String
  ftype : ArrowType
  nullable : Bool
deriving DecidableEq, Repr

/-- Modelled from the spec: a schema is an ordered sequence of fields plus
key-value metadata; `Schema::Equals(other, true)` (with `check_metadata`
set) is structural equality over both. -/
structure Schema where
  fields : List Field
  metadata : List (String × String)
deriving DecidableEq, Repr

def typeName : ArrowType → String
  | .boolean => "bool"
  | .fixedWidth w => "fixed[" ++ toString w ++ "]"
  | .binaryLike => "binary"
  | .unsupported => "unsupported"

/-- Modelled from the spec: `Schema::ToString()` renders the schema's
canonical string form; any structurally equal schemas render identically
because the model makes it a function of the structural value. -/
def Schema.toStr (s : Schema) : String :=
  String.intercalate ", "
    (s.fields.map fun f => f.name ++ ": " ++ typeName f.ftype)

/-- Modelled from the spec: `Configuration` is an opaque, hashable,
equality-comparable object controlling compilation behaviour. -/
structure Configuration where
  optimize : Bool
  targetHostCPU : Bool
deriving DecidableEq, Repr

/-- Modelled from the spec: `Configuration::Hash()` is a pure function of the
configuration value, so equal configurations hash equal. -/
def Configuration.Hash (c : Configuration) : Nat :=
  (if c.optimize then 2 else 0) + (if c.targetHostCPU then 1 else 0)

/-- Modelled from the spec: an expression is an opaque tree whose textual
canonical form (`ToString`) and declared result field are known before
compilation; only those two projections are consumed by this core. -/
structure Expression where
  toStr : String
  result : Field
deriving DecidableEq, Repr

/-- `SelectionVector::Mode`. -/
inductive Mode
  | MODE_NONE
  | MODE_UINT16
  | MODE_UINT32
  | MODE_UINT64
deriving DecidableEq, Repr

def Mode.toNat : Mode → Nat
  | .MODE_NONE => 0
  | .MODE_UINT16 => 1
  | .MODE_UINT32 => 2
  | .MODE_UINT64 => 3

/-- Modelled from the spec: `std::hash<std::string>`; any pure function of
the string suffices for the fingerprinting claims. -/
def stringHash (s : String) : Nat :=
  s.toList.foldl (fun h c => (h * 31 + c.toNat) % 2 ^ 64) 7

/-- Modelled from the spec: `arrow::internal::hash_combine(seed, v)` folds a
value into a running hash; a pure function of (seed, value). -/
def hashCombine (seed v : Nat) : Nat :=
  (seed ^^^ (v + 2654435769 + seed * 64 + seed / 4)) % 2 ^ 64

def matchesAt : List Char → List Char → Bool
  | [], _ => true
  | _ :: _, [] => false
  | p :: ps, c :: cs => p == c && matchesAt ps cs

def occursIn (pat : List Char) : List Char → Bool
  | [] => pat.isEmpty
  | c :: cs => matchesAt pat (c :: cs) || occursIn pat cs

/-- `expr.find(" like(") != std::string::npos`: does the expression's
canonical string contain the contention-prone operation signature? -/
def containsLike (s : String) : Bool :=
  occursIn " like(".toList s.toList

/-- `ProjectorCacheKey::UpdateUniqifier`, as a fold step over the expression
canonical strings: assign the thread-derived shard only while still 0.
`threadHash` models `std::hash<std::thread::id>()(std::this_thread::get_id())`. -/
def updateUniqifier (threadHash : Nat) (uniq : Nat) (expr : String) : Nat :=
  if uniq = 0 then
    if containsLike expr then threadHash % 16 else uniq
  else uniq

/-- `ProjectorCacheKey`: the stored components.  `hashCode` caches the hash
computed once in the constructor. -/
structure ProjectorCacheKey where
  schema : Schema
  configuration : Configuration
  mode : Mode
  expressionsAsStrings : List String
  hashCode : Nat
  uniqifier : Nat
deriving DecidableEq, Repr

/-- The `ProjectorCacheKey` constructor: seed the hash with the fixed
constant 4; for each expression in order take its canonical string, push it
onto `expressionsAsStrings`, fold it into the hash and update the uniqifier;
then fold in the mode, the configuration's own hash, the schema's canonical
string, and finally the uniqifier. -/
def mkProjectorCacheKey (schema : Schema) (configuration : Configuration)
    (exprs : List Expression) (mode : Mode) (threadHash : Nat) :
    ProjectorCacheKey :=
  let strs := exprs.map Expression.toStr
  let hu : Nat × Nat :=
    strs.foldl
      (fun p s => (hashCombine p.1 (stringHash s), updateUniqifier threadHash p.2 s))
      (4, 0)
  let h1 := hashCombine hu.1 mode.toNat
  let h2 := hashCombine h1 configuration.Hash
  let h3 := hashCombine h2 (stringHash schema.toStr)
  let h4 := hashCombine h3 hu.2
  ⟨schema, configuration, mode, strs, h4, hu.2⟩

/-- `ProjectorCacheKey::Hash()`. -/
def ProjectorCacheKey.Hash (k : ProjectorCacheKey) : Nat := k.hashCode

/-- `ProjectorCacheKey::operator==`: compare, in this order and
short-circuiting on the first mismatch, schema structural equality,
configuration, expression-string list, mode, uniqifier.  The stored
`hashCode` does not participate. -/
def ProjectorCacheKey.beq (k o : ProjectorCacheKey) : Bool :=
  if ¬ (k.schema = o.schema) then false
  else if ¬ (k.configuration = o.configuration) then false
  else if ¬ (k.expressionsAsStrings = o.expressionsAsStrings) then false
  else if ¬ (k.mode = o.mode) then false
  else if ¬ (k.uniqifier = o.uniqifier) then false
  else true

/-! ## Build orchestration and evaluation -/

/-- The opaque compiled-backend handle (`LLVMGenerator`). -/
structure LLVMGenerator where
  id : Nat
deriving DecidableEq, Repr

/-- Modelled from the spec: the external collaborators `LLVMGenerator::Make`,
`ExprValidator::Validate` and `LLVMGenerator::Build` are consumed through
narrow interfaces; they are passed in as function-valued parameters so the
orchestration is quantified over every possible collaborator behaviour. -/
structure Backend where
  make : Configuration → Except String LLVMGenerator
  validate : LLVMGenerator → Schema → Expression → Except String Unit
  build : LLVMGenerator → List Expression → Mode → Except String Unit
  execute : LLVMGenerator → Nat → Option Nat → Except String Unit

/-- `Projector`: the compiled evaluator bound to its schema, output fields
and configuration. -/
structure Projector where
  llvmGenerator : LLVMGenerator
  schema : Schema
  outputFields : List Field
  configuration : Configuration
deriving DecidableEq, Repr

/-- Modelled from the spec: the generic keyed cache exposes get/put; keys are
compared by `ProjectorCacheKey::operator==`. -/
abbrev Cache := List (ProjectorCacheKey × Projector)

def getModule (c : Cache) (k : ProjectorCacheKey) : Option Projector :=
  (c.find? fun p => p.fst.beq k).map Prod.snd

def putModule (c : Cache) (k : ProjectorCacheKey) (v : Projector) : Cache :=
  (k, v) :: c

/-- Observable side-effecting steps of a build or evaluation call, recorded
in order so the theorems can state which steps did not happen. -/
inductive Action
  | cacheLookup
  | backendMake
  | validateExpr (e : Expression)
  | backendBuild
  | cacheInsert
  | execute
deriving DecidableEq, Repr

/-- The validation loop of `Projector::Make`: run the validator on every
expression in list order, aborting on the first failure. -/
def validateAll (env : Backend) (gen : LLVMGenerator) (schema : Schema) :
    List Expression → Except String Unit × List Action
  | [] => (.ok (), [])
  | e :: rest =>
    match env.validate gen schema e with
    | .error msg => (.error msg, [.validateExpr e])
    | .ok _ =>
      let p := validateAll env gen schema rest
      (p.1, .validateExpr e :: p.2)

/-- `Projector::Make`: reject null schema, empty expression list, null
configuration; construct the cache key; on a cache hit return the cached
projector unchanged; on a miss build the backend, validate every expression
in order, compile, derive the output fields, and insert the new projector in
the cache.  Returns (result, cache after the call, action trace). -/
def Make (env : Backend) (schema : Option Schema) (exprs : List Expression)
    (mode : Mode) (configuration : Option Configuration) (threadHash : Nat)
    (cache : Cache) :
    Except String Projector × Cache × List Action :=
  match schema with
  | none => (.error "Schema cannot be null", cache, [])
  | some schema =>
    if exprs.isEmpty then (.error "Expressions cannot be empty", cache, [])
    else
      match configuration with
      | none => (.error "Configuration cannot be null", cache, [])
      | some configuration =>
        let key := mkProjectorCacheKey schema configuration exprs mode threadHash
        match getModule cache key with
        | some cached => (.ok cached, cache, [.cacheLookup])
        | none =>
          match env.make configuration with
          | .error msg => (.error msg, cache, [.cacheLookup, .backendMake])
          | .ok gen =>
            match validateAll env gen schema exprs with
            | (.error msg, acts) =>
              (.error msg, cache, .cacheLookup :: .backendMake :: acts)
            | (.ok _, acts) =>
              match env.build gen exprs mode with
              | .error msg =>
                (.error msg, cache,
                  .cacheLookup :: .backendMake :: acts ++ [.backendBuild])
              | .ok _ =>
                let outputFields := exprs.map Expression.result
                let proj : Projector := ⟨gen, schema, outputFields, configuration⟩
                (.ok proj, putModule cache key proj,
                  .cacheLookup :: .backendMake :: acts ++ [.backendBuild, .cacheInsert])

/-- An `arrow::RecordBatch` as consumed here: its schema and row count. -/
structure RecordBatch where
  schema : Schema
  numRows : Nat
deriving DecidableEq, Repr

/-- `Projector::ValidateEvaluateArgsCommon`: the batch schema must equal the
bound schema structurally, and the batch must be non-empty. -/
def ValidateEvaluateArgsCommon (boundSchema : Schema) (batch : RecordBatch) :
    Except String Unit :=
  if ¬ (batch.schema = boundSchema) then
    .error "Schema in RecordBatch must match schema in Make()"
  else if batch.numRows = 0 then
    .error "RecordBatch must be non-empty."
  else
    .ok ()

/-- The effective row count: the batch row count, or the selection vector's
slot count when one is supplied. -/
def effNumRows (batch : RecordBatch) : Option Nat → Nat
  | none => batch.numRows
  | some slots => slots

/-- The per-column loop of the caller-supplied-buffer `Evaluate`: each
column's array data must be non-null and satisfy the capacity contract.
`none` propagates an undefined buffer access from the validator. -/
def validateOutputs (fields : List Field) (outs : List (Option (List Buffer)))
    (n : Nat) : Option (Except String Unit) :=
  match fields, outs with
  | f :: fs, o :: os =>
    match o with
    | none => some (.error "array for output field is null")
    | some bufs =>
      match ValidateArrayDataCapacity bufs f.ftype n with
      | none => none
      | some (.error msg) => some (.error msg)
      | some (.ok _) => validateOutputs fs os n
  | _, _ => some (.ok ())

/-- `Projector::Evaluate` (caller-supplied buffers): common argument checks,
output-count check, per-column null/capacity checks, then delegate to the
backend execution.  Returns (result, action trace); `none` marks an
undefined buffer access inside validation. -/
def EvaluateWithBuffers (env : Backend) (p : Projector) (batch : RecordBatch)
    (sel : Option Nat) (outs : List (Option (List Buffer))) :
    Option (Except String Unit) × List Action :=
  match ValidateEvaluateArgsCommon p.schema batch with
  | .error msg => (some (.error msg), [])
  | .ok _ =>
    if ¬ (outs.length = p.outputFields.length) then
      (some (.error "number of buffers for output_data_vecs mismatch"), [])
    else
      match validateOutputs p.outputFields outs (effNumRows batch sel) with
      | none => (none, [])
      | some (.error msg) => (some (.error msg), [])
      | some (.ok _) =>
        (some (env.execute p.llvmGenerator (effNumRows batch sel) sel), [.execute])

/-- The allocation loop of the self-allocating `Evaluate`: plan a buffer set
for every output field, aborting on the first unsupported type. -/
def allocAll (fields : List Field) (n : Nat) : Except String (List (List Buffer)) :=
  match fields with
  | [] => .ok []
  | f :: fs =>
    match AllocArrayData f.ftype n with
    | .error msg => .error msg
    | .ok bufs =>
      match allocAll fs n with
      | .error msg => .error msg
      | .ok rest => .ok (bufs :: rest)

/-- `Projector::Evaluate` (self-allocating): common argument checks, allocate
a buffer set per output field for the effective row count, execute, and
return the populated buffer sets. -/
def EvaluateSelfAlloc (env : Backend) (p : Projector) (batch : RecordBatch)
    (sel : Option Nat) :
    Except String (List (List Buffer)) × List Action :=
  match ValidateEvaluateArgsCommon p.schema batch with
  | .error msg => (.error msg, [])
  | .ok _ =>
    match allocAll p.outputFields (effNumRows batch sel) with
    | .error msg => (.error msg, [])
    | .ok datas =>
      match env.execute p.llvmGenerator (effNumRows batch sel) sel with
      | .error msg => (.error msg, [.execute])
      | .ok _ => (.ok datas, [.execute])

/-! ## Helper lemmas -/

lemma bytesForBits_le_self (bits : Nat) : bits ≤ 8 * BytesForBits bits := by
  unfold BytesForBits; omega

lemma bytesForBits_least (bits k : Nat) (h : bits ≤ 8 * k) :
    BytesForBits bits ≤ k := by
  unfold BytesForBits; omega

lemma projectorCacheKey_beq_iff (k o : ProjectorCacheKey) :
    k.beq o = true ↔
      k.schema = o.schema ∧ k.configuration = o.configuration ∧
      k.expressionsAsStrings = o.expressionsAsStrings ∧ k.mode = o.mode ∧
      k.uniqifier = o.uniqifier := by
  unfold ProjectorCacheKey.beq
  split_ifs <;> simp_all

lemma projectorCacheKey_beq_refl (k : ProjectorCacheKey) : k.beq k = true :=
  (projectorCacheKey_beq_iff k k).mpr ⟨rfl, rfl, rfl, rfl, rfl⟩

lemma foldl_hash_uniq_fst (t : Nat) (strs : List String) (a b : Nat) :
    (strs.foldl
      (fun p s => (hashCombine p.1 (stringHash s), updateUniqifier t p.2 s))
      (a, b)).1 =
    strs.foldl (fun h s => hashCombine h (stringHash s)) a := by
  induction strs generalizing a b with
  | nil => rfl
  | cons s ss ih => simpa using ih (hashCombine a (stringHash s)) (updateUniqifier t b s)

lemma foldl_hash_uniq_snd (t : Nat) (strs : List String) (a b : Nat) :
    (strs.foldl
      (fun p s => (hashCombine p.1 (stringHash s), updateUniqifier t p.2 s))
      (a, b)).2 =
    strs.foldl (updateUniqifier t) b := by
  induction strs generalizing a b with
  | nil => rfl
  | cons s ss ih => simpa using ih (hashCombine a (stringHash s)) (updateUniqifier t b s)

lemma foldl_updateUniqifier_ne_zero (t : Nat) (l : List String) (a : Nat)
    (h : a ≠ 0) : l.foldl (updateUniqifier t) a = a := by
  induction l with
  | nil => rfl
  | cons s ss ih => simp [updateUniqifier, h, ih]

lemma foldl_updateUniqifier_zero (t : Nat) (l : List String) :
    l.foldl (updateUniqifier t) 0 =
      if l.any containsLike then t % 16 else 0 := by
  induction l with
  | nil => rfl
  | cons s ss ih =>
    by_cases hc : containsLike s
    · by_cases ht : t % 16 = 0
      · simp [updateUniqifier, hc, ht, ih]
      · simp [updateUniqifier, hc, foldl_updateUniqifier_ne_zero t ss _ ht]
    · simp [updateUniqifier, hc, ih]

lemma mk_uniqifier (s : Schema) (c : Configuration) (exprs : List Expression)
    (m : Mode) (t : Nat) :
    (mkProjectorCacheKey s c exprs m t).uniqifier =
      if (exprs.map Expression.toStr).any containsLike then t % 16 else 0 := by
  simp only [mkProjectorCacheKey]
  rw [foldl_hash_uniq_snd, foldl_updateUniqifier_zero]

lemma validateAll_ok (env : Backend) (gen : LLVMGenerator) (s : Schema)
    (l : List Expression) (h : ∀ x ∈ l, env.validate gen s x = .ok ()) :
    validateAll env gen s l = (.ok (), l.map Action.validateExpr) := by
  induction l with
  | nil => rfl
  | cons e es ih =>
    have he := h e (by simp)
    simp [validateAll, he, ih fun x hx => h x (by simp [hx])]

lemma validateAll_first_error (env : Backend) (gen : LLVMGenerator) (s : Schema)
    (pre : List Expression) (bad : Expression) (post : List Expression)
    (msg : String) (hpre : ∀ x ∈ pre, env.validate gen s x = .ok ())
    (hbad : env.validate gen s bad = .error msg) :
    validateAll env gen s (pre ++ bad :: post) =
      (.error msg, pre.map Action.validateExpr ++ [Action.validateExpr bad]) := by
  induction pre with
  | nil => simp [validateAll, hbad]
  | cons e es ih =>
    have he := hpre e (by simp)
    simp [validateAll, he, ih fun x hx => hpre x (by simp [hx])]

lemma cacheInsert_not_mem_validateAll (env : Backend) (gen : LLVMGenerator)
    (s : Schema) (l : List Expression) :
    Action.cacheInsert ∉ (validateAll env gen s l).2 := by
  induction l with
  | nil => simp [validateAll]
  | cons e es ih =>
    simp only [validateAll]
    cases env.validate gen s e <;> simp_all

lemma getModule_put_self (cache : Cache) (k : ProjectorCacheKey) (v : Projector) :
    getModule (putModule cache k v) k = some v := by
  simp [getModule, putModule, List.find?, projectorCacheKey_beq_refl]

lemma make_hit (env : Backend) (s : Schema) (e : Expression)
    (es : List Expression) (mode : Mode) (config : Configuration) (t : Nat)
    (cache : Cache) (p : Projector)
    (hget : getModule cache (mkProjectorCacheKey s config (e :: es) mode t) =
      some p) :
    Make env (some s) (e :: es) mode (some config) t cache =
      (.ok p, cache, [.cacheLookup]) := by
  simp [Make, hget]

/-- A collaborator assignment whose steps all succeed, for concrete runs. -/
def trivialBackend : Backend where
  make _ := .ok ⟨0⟩
  validate _ _ _ := .ok ()
  build _ _ _ := .ok ()
  execute _ _ _ := .ok ()

/-- A collaborator assignment whose backend construction fails. -/
def failingBackend : Backend where
  make _ := .error "llvm generator construction failed"
  validate _ _ _ := .ok ()
  build _ _ _ := .error "build failed"
  execute _ _ _ := .ok ()

def sampleSchema : Schema := ⟨[⟨"a", .fixedWidth 32, true⟩], []⟩

def sampleConfig : Configuration := ⟨true, false⟩

def sampleExpr : Expression := ⟨"a + a", ⟨"r", .fixedWidth 32, true⟩⟩

def sampleKey : ProjectorCacheKey :=
  mkProjectorCacheKey sampleSchema sampleConfig [sampleExpr] .MODE_NONE 0

def sampleProjector : Projector :=
  ⟨⟨0⟩, sampleSchema, [⟨"r", .fixedWidth 32, true⟩], sampleConfig⟩

/-! ## Claims -/

/-- C1: The buffer-shape planner (`AllocArrayData`) and the buffer-capacity
validator (`ValidateArrayDataCapacity`) use the same minimum sizes: the
validity bitmap minimum is `ceil(n/8)` bytes (`BytesForBits n`, the least `k`
with `n ≤ 8*k`), the offsets minimum for a variable-length type is
`ceil((n+1)*32/8)` bytes, and the data minimum for a fixed-width type of bit
width `w` is `ceil(n*w/8)` bytes: every planned buffer set passes the
validator, the planner emits exactly these sizes, and the validator accepts
exactly the capacities at or above them. -/
theorem alloc_validate_same_minimums :
    (∀ bits, bits ≤ 8 * BytesForBits bits ∧
       ∀ k, bits ≤ 8 * k → BytesForBits bits ≤ k) ∧
    (∀ ty n bs, AllocArrayData ty n = .ok bs →
       ValidateArrayDataCapacity bs ty n = some (.ok ())) ∧
    (∀ n w, AllocArrayData (.fixedWidth w) n =
       .ok [⟨BytesForBits n, false⟩, ⟨BytesForBits (n * w), true⟩]) ∧
    (∀ n, AllocArrayData .binaryLike n =
       .ok [⟨BytesForBits n, false⟩, ⟨BytesForBits ((n + 1) * 32), false⟩,
            ⟨0, true⟩]) ∧
    (∀ n w b0 b1,
       ValidateArrayDataCapacity [b0, b1] (.fixedWidth w) n = some (.ok ()) ↔
       BytesForBits n ≤ b0.capacity ∧ BytesForBits (n * w) ≤ b1.capacity) ∧
    (∀ n b0 b1 b2, b2.resizable = true →
       (ValidateArrayDataCapacity [b0, b1, b2] .binaryLike n = some (.ok ()) ↔
        BytesForBits n ≤ b0.capacity ∧
        BytesForBits ((n + 1) * 32) ≤ b1.capacity)) := by
  refine ⟨fun bits => ⟨bytesForBits_le_self bits, fun k => bytesForBits_least bits k⟩,
    ?_, ?_, ?_, ?_, ?_⟩
  · intro ty n bs h
    cases ty <;>
      simp [AllocArrayData, ArrowType.isBinaryLike,
        ArrowType.isPrimitiveOrDecimal] at h <;>
      subst h <;>
      simp [ValidateArrayDataCapacity, ArrowType.isBinaryLike,
        ArrowType.isPrimitiveOrDecimal, ArrowType.bitWidth]
  · intro n w
    simp [AllocArrayData, ArrowType.isBinaryLike, ArrowType.isPrimitiveOrDecimal,
      ArrowType.bitWidth]
  · intro n
    simp [AllocArrayData, ArrowType.isBinaryLike, ArrowType.isPrimitiveOrDecimal]
  · intro n w b0 b1
    simp only [ValidateArrayDataCapacity, ArrowType.isBinaryLike,
      ArrowType.isPrimitiveOrDecimal, ArrowType.bitWidth]
    split_ifs with h1 <;> simp_all
    split_ifs with h2 h3 <;> simp_all
  · intro n b0 b1 b2 hres
    simp only [ValidateArrayDataCapacity, ArrowType.isBinaryLike, hres]
    split_ifs with h1 <;> simp_all
    split_ifs with h2 h3 <;> simp_all

/-- C1 witness: the planner/validator agreement evaluated at a 32-bit
fixed-width column with one row and exactly the minimal capacities. -/
theorem alloc_validate_same_minimums_witness :
    ValidateArrayDataCapacity [⟨1, false⟩, ⟨4, true⟩] (.fixedWidth 32) 1 =
      some (.ok ()) :=
  (alloc_validate_same_minimums.2.2.2.2.1 1 32 ⟨1, false⟩ ⟨4, true⟩).mpr
    (by decide)

/-- C2: `ProjectorCacheKey::operator==` is an equivalence relation
(reflexive, symmetric, transitive), and two keys compare equal if and only
if all five components are equal: schema (structurally), configuration,
ordered expression-string list, execution mode, and shard index.  The
definition checks the components in exactly that order, short-circuiting on
the first mismatch. -/
theorem cacheKey_equality_equivalence :
    (∀ k : ProjectorCacheKey, k.beq k = true) ∧
    (∀ a b : ProjectorCacheKey, a.beq b = b.beq a) ∧
    (∀ a b c : ProjectorCacheKey,
       a.beq b = true → b.beq c = true → a.beq c = true) ∧
    (∀ a b : ProjectorCacheKey, a.beq b = true ↔
       a.schema = b.schema ∧ a.configuration = b.configuration ∧
       a.expressionsAsStrings = b.expressionsAsStrings ∧ a.mode = b.mode ∧
       a.uniqifier = b.uniqifier) := by
  refine ⟨projectorCacheKey_beq_refl, ?_, ?_, projectorCacheKey_beq_iff⟩
  · intro a b
    rw [Bool.eq_iff_iff, projectorCacheKey_beq_iff, projectorCacheKey_beq_iff]
    constructor <;> rintro ⟨h1, h2, h3, h4, h5⟩ <;>
      exact ⟨h1.symm, h2.symm, h3.symm, h4.symm, h5.symm⟩
  · intro a b c hab hbc
    obtain ⟨h1, h2, h3, h4, h5⟩ := (projectorCacheKey_beq_iff a b).mp hab
    obtain ⟨g1, g2, g3, g4, g5⟩ := (projectorCacheKey_beq_iff b c).mp hbc
    exact (projectorCacheKey_beq_iff a c).mpr
      ⟨h1.trans g1, h2.trans g2, h3.trans g3, h4.trans g4, h5.trans g5⟩

/-- C2 witness: transitivity of key equality applied at a concrete key. -/
theorem cacheKey_equality_equivalence_witness :
    ProjectorCacheKey.beq ⟨⟨[], []⟩, ⟨false, false⟩, .MODE_NONE, [], 0, 0⟩
      ⟨⟨[], []⟩, ⟨false, false⟩, .MODE_NONE, [], 0, 0⟩ = true :=
  cacheKey_equality_equivalence.2.2.1 _
    ⟨⟨[], []⟩, ⟨false, false⟩, .MODE_NONE, [], 0, 0⟩ _ (by decide) (by decide)

/-- C3: the cache-key hash is consistent with equality: any two constructed
keys that compare equal under `operator==` have the same `Hash()` value (the
hash is seeded with the fixed constant 4 and folds, in order, each
expression's canonical string, the execution mode, the configuration's hash,
the schema's canonical string, and finally the shard index). -/
theorem cacheKey_hash_consistent :
    ∀ s1 c1 e1 m1 t1 s2 c2 e2 m2 t2,
      (mkProjectorCacheKey s1 c1 e1 m1 t1).beq
        (mkProjectorCacheKey s2 c2 e2 m2 t2) = true →
      (mkProjectorCacheKey s1 c1 e1 m1 t1).Hash =
        (mkProjectorCacheKey s2 c2 e2 m2 t2).Hash := by
  intro s1 c1 e1 m1 t1 s2 c2 e2 m2 t2 h
  obtain ⟨hs, hc, he, hm, hu⟩ := (projectorCacheKey_beq_iff _ _).mp h
  simp only [mkProjectorCacheKey] at hs hc he hm hu
  subst hs; subst hc; subst hm
  simp only [ProjectorCacheKey.Hash, mkProjectorCacheKey]
  rw [foldl_hash_uniq_fst, foldl_hash_uniq_fst,
    foldl_hash_uniq_snd, foldl_hash_uniq_snd]
  rw [foldl_hash_uniq_snd, foldl_hash_uniq_snd] at hu
  rw [he] at hu ⊢
  rw [hu]

/-- C3 witness: two keys built from distinct expression objects with equal
canonical strings (and on different threads, with no contention-prone
expression) compare equal and hash equal. -/
theorem cacheKey_hash_consistent_witness :
    (mkProjectorCacheKey ⟨[], []⟩ ⟨true, false⟩
        [⟨"a + b", ⟨"r", .boolean, true⟩⟩] .MODE_NONE 3).Hash =
      (mkProjectorCacheKey ⟨[], []⟩ ⟨true, false⟩
        [⟨"a + b", ⟨"s", .fixedWidth 32, false⟩⟩] .MODE_NONE 7).Hash :=
  cacheKey_hash_consistent _ _ _ _ 3 _ _ _ _ 7 (by decide)

/-- C9: the shard index (uniqifier) of a constructed key is 0 whenever no
expression's canonical string contains the contention-prone signature
`" like("`; if some expression's canonical string contains it, the shard
index equals the calling thread's hash modulo 16 (assigned only while still
0, so later matches cannot change it); in all cases it lies in 0..15. -/
theorem uniqifier_shard_spec :
    ∀ s c exprs m t,
      ((exprs.map Expression.toStr).any containsLike = false →
        (mkProjectorCacheKey s c exprs m t).uniqifier = 0) ∧
      ((exprs.map Expression.toStr).any containsLike = true →
        (mkProjectorCacheKey s c exprs m t).uniqifier = t % 16) ∧
      (mkProjectorCacheKey s c exprs m t).uniqifier < 16 := by
  intro s c exprs m t
  simp only [mk_uniqifier]
  refine ⟨fun h => by simp [h], fun h => by simp [h], ?_⟩
  split_ifs
  · exact Nat.mod_lt _ (by omega)
  · omega

/-- C9 witness: a `like` expression built on a thread with hash 20 lands in
shard 4; an expression list without the signature stays in shard 0. -/
theorem uniqifier_shard_spec_witness :
    (mkProjectorCacheKey ⟨[], []⟩ ⟨false, false⟩
      [⟨"ok(a) like(b)", ⟨"r", .binaryLike, true⟩⟩] .MODE_NONE 20).uniqifier =
      20 % 16 :=
  (uniqifier_shard_spec ⟨[], []⟩ ⟨false, false⟩
    [⟨"ok(a) like(b)", ⟨"r", .binaryLike, true⟩⟩] .MODE_NONE 20).2.1 (by decide)

/-- C4: `Projector::Make` fails with the invalid-argument error whenever the
schema is null, the expression list is empty, or the configuration is null;
in each case it returns before constructing the cache key, consulting the
cache (the action trace is empty, so no lookup happened), or invoking the
backend, and the cache is returned unchanged. -/
theorem make_rejects_invalid_inputs :
    ∀ (env : Backend) (mode : Mode) (t : Nat) (cache : Cache),
      (∀ exprs config,
        Make env none exprs mode config t cache =
          (.error "Schema cannot be null", cache, [])) ∧
      (∀ s config,
        Make env (some s) [] mode config t cache =
          (.error "Expressions cannot be empty", cache, [])) ∧
      (∀ s e es,
        Make env (some s) (e :: es) mode none t cache =
          (.error "Configuration cannot be null", cache, [])) :=
  fun _ _ _ _ => ⟨fun _ _ => rfl, fun _ _ => rfl, fun _ _ _ => rfl⟩

/-- C5: every failing build leaves the cache untouched and performs no cache
insertion; in particular a backend-construction failure, the first
validation failure (expressions are validated in list order and the run
aborts there), and a backend compile failure each surface their error to the
caller with the cache unchanged — insertion only happens after all prior
steps succeed. -/
theorem make_failure_no_partial_cache :
    (∀ env s e es mode config t cache r c tr,
       Make env (some s) (e :: es) mode (some config) t cache = (r, c, tr) →
       ∀ msg, r = .error msg → c = cache ∧ Action.cacheInsert ∉ tr) ∧
    (∀ env s e es mode config t cache msg,
       getModule cache (mkProjectorCacheKey s config (e :: es) mode t) = none →
       env.make config = .error msg →
       Make env (some s) (e :: es) mode (some config) t cache =
         (.error msg, cache, [.cacheLookup, .backendMake])) ∧
    (∀ env s mode config t cache gen pre bad post msg,
       getModule cache
         (mkProjectorCacheKey s config (pre ++ bad :: post) mode t) = none →
       env.make config = .ok gen →
       (∀ x ∈ pre, env.validate gen s x = .ok ()) →
       env.validate gen s bad = .error msg →
       Make env (some s) (pre ++ bad :: post) mode (some config) t cache =
         (.error msg, cache,
           .cacheLookup :: .backendMake ::
             (pre.map Action.validateExpr ++ [Action.validateExpr bad]))) ∧
    (∀ env s e es mode config t cache gen msg,
       getModule cache (mkProjectorCacheKey s config (e :: es) mode t) = none →
       env.make config = .ok gen →
       (∀ x ∈ e :: es, env.validate gen s x = .ok ()) →
       env.build gen (e :: es) mode = .error msg →
       Make env (some s) (e :: es) mode (some config) t cache =
         (.error msg, cache,
           .cacheLookup :: .backendMake ::
             ((e :: es).map Action.validateExpr ++ [Action.backendBuild]))) := by
  refine ⟨?_, ?_, ?_, ?_⟩
  · intro env s e es mode config t cache r c tr hmk msg hr
    subst hr
    simp only [Make, List.isEmpty_cons, Bool.false_eq_true, if_false] at hmk
    split at hmk
    next cached hget => simp at hmk
    next hget =>
      split at hmk
      next msg' hmake =>
        simp only [Prod.mk.injEq] at hmk
        obtain ⟨-, h2, h3⟩ := hmk
        exact ⟨h2.symm, h3 ▸ (by simp)⟩
      next gen hmake =>
        split at hmk
        next msg' acts hv =>
          simp only [Prod.mk.injEq] at hmk
          obtain ⟨-, h2, h3⟩ := hmk
          have hni := cacheInsert_not_mem_validateAll env gen s (e :: es)
          rw [hv] at hni
          simp only at hni
          refine ⟨h2.symm, ?_⟩
          rw [← h3]
          simp [hni]
        next u acts hv =>
          split at hmk
          next msg' hbuild =>
            simp only [Prod.mk.injEq] at hmk
            obtain ⟨-, h2, h3⟩ := hmk
            have hni := cacheInsert_not_mem_validateAll env gen s (e :: es)
            rw [hv] at hni
            simp only at hni
            refine ⟨h2.symm, ?_⟩
            rw [← h3]
            simp [hni]
          next hbuild => simp at hmk
  · intro env s e es mode config t cache msg hget hmake
    simp [Make, hget, hmake]
  · intro env s mode config t cache gen pre bad post msg hget hmake hpre hbad
    have hv := validateAll_first_error env gen s pre bad post msg hpre hbad
    have hne : (pre ++ bad :: post).isEmpty = false := by cases pre <;> rfl
    simp [Make, hne, hget, hmake, hv]
  · intro env s e es mode config t cache gen msg hget hmake hval hbuild
    have hv := validateAll_ok env gen s (e :: es) hval
    simp [Make, hget, hmake, hv, hbuild]

/-- C5 witness: a backend-construction failure on an empty cache surfaces the
backend's error, with the cache still empty and no insertion action. -/
theorem make_failure_no_partial_cache_witness :
    Make failingBackend (some ⟨[], []⟩) [⟨"x", ⟨"r", .boolean, true⟩⟩]
      .MODE_NONE (some ⟨false, false⟩) 0 [] =
      (.error "llvm generator construction failed", [],
        [.cacheLookup, .backendMake]) :=
  make_failure_no_partial_cache.2.1 failingBackend ⟨[], []⟩
    ⟨"x", ⟨"r", .boolean, true⟩⟩ [] .MODE_NONE ⟨false, false⟩ 0 [] _ rfl rfl

/-- C6: on a cache hit `Projector::Make` returns the cached evaluator with
the cache unchanged, performing no backend construction, no expression
validation and no compilation (the action trace is the lookup alone);
consequently, after any successful build, building again with equal schema,
expressions, configuration, mode and thread-derived shard returns the very
projector instance of the first build. -/
theorem make_cache_hit_reuse :
    (∀ env s exprs mode config t cache p,
       exprs ≠ [] →
       getModule cache (mkProjectorCacheKey s config exprs mode t) = some p →
       Make env (some s) exprs mode (some config) t cache =
         (.ok p, cache, [.cacheLookup])) ∧
    (∀ env s exprs mode config t cache p c tr,
       Make env (some s) exprs mode (some config) t cache = (.ok p, c, tr) →
       Make env (some s) exprs mode (some config) t c =
         (.ok p, c, [.cacheLookup])) := by
  constructor
  · intro env s exprs mode config t cache p hne hget
    cases exprs with
    | nil => exact absurd rfl hne
    | cons e es => exact make_hit env s e es mode config t cache p hget
  · intro env s exprs mode config t cache p c tr hmk
    cases exprs with
    | nil => simp [Make] at hmk
    | cons e es =>
      simp only [Make, List.isEmpty_cons, Bool.false_eq_true, if_false] at hmk
      split at hmk
      next cached hget =>
        simp only [Prod.mk.injEq, Except.ok.injEq] at hmk
        obtain ⟨h1, h2, h3⟩ := hmk
        subst h1; subst h2
        exact make_hit _ _ _ _ _ _ _ _ _ hget
      next hget =>
        split at hmk
        next msg' hmake => simp at hmk
        next gen hmake =>
          split at hmk
          next msg' acts hv => simp at hmk
          next u acts hv =>
            split at hmk
            next msg' hbuild => simp at hmk
            next hbuild =>
              simp only [Prod.mk.injEq, Except.ok.injEq] at hmk
              obtain ⟨h1, h2, h3⟩ := hmk
              subst h1; subst h2
              exact make_hit env s e es mode config t _ _
                (getModule_put_self cache
                  (mkProjectorCacheKey s config (e :: es) mode t) _)

/-- C6 witness: a build request whose key is already cached returns the
cached projector unchanged with a lookup-only trace. -/
theorem make_cache_hit_reuse_witness :
    Make trivialBackend (some sampleSchema) [sampleExpr] .MODE_NONE
      (some sampleConfig) 0 [(sampleKey, sampleProjector)] =
      (.ok sampleProjector, [(sampleKey, sampleProjector)], [.cacheLookup]) :=
  make_cache_hit_reuse.1 trivialBackend sampleSchema [sampleExpr] .MODE_NONE
    sampleConfig 0 [(sampleKey, sampleProjector)] sampleProjector
    (by simp) rfl

/-- C7: both evaluation entry points (caller-supplied buffers and
self-allocating) fail with an invalid-argument error whenever the batch's
schema is not structurally equal to the build-time schema or the batch has
zero rows, and in both cases no execution is attempted (the action trace is
empty). -/
theorem evaluate_common_precondition :
    ∀ env p batch sel outs,
      (¬ (batch.schema = p.schema) ∨ batch.numRows = 0) →
      (∃ msg, EvaluateWithBuffers env p batch sel outs =
        (some (.error msg), [])) ∧
      (∃ msg, EvaluateSelfAlloc env p batch sel = (.error msg, [])) := by
  intro env p batch sel outs h
  by_cases hs : batch.schema = p.schema
  · have hn : batch.numRows = 0 := by tauto
    exact ⟨⟨"RecordBatch must be non-empty.", by
        simp [EvaluateWithBuffers, ValidateEvaluateArgsCommon, hs, hn]⟩,
      ⟨"RecordBatch must be non-empty.", by
        simp [EvaluateSelfAlloc, ValidateEvaluateArgsCommon, hs, hn]⟩⟩
  · exact ⟨⟨"Schema in RecordBatch must match schema in Make()", by
        simp [EvaluateWithBuffers, ValidateEvaluateArgsCommon, hs]⟩,
      ⟨"Schema in RecordBatch must match schema in Make()", by
        simp [EvaluateSelfAlloc, ValidateEvaluateArgsCommon, hs]⟩⟩

/-- C7 witness: a zero-row batch with the matching schema is rejected by the
self-allocating path without executing. -/
theorem evaluate_common_precondition_witness :
    ∃ msg, EvaluateSelfAlloc trivialBackend sampleProjector
      ⟨sampleSchema, 0⟩ none = (.error msg, []) :=
  (evaluate_common_precondition trivialBackend sampleProjector
    ⟨sampleSchema, 0⟩ none [] (Or.inr rfl)).2

/-- C8: in the caller-supplied-buffer path, for a variable-length
(binary-like) output field with adequate bitmap and offsets buffers,
validation fails with the invalid-argument error whenever the data buffer is
not resizable — for every data-buffer capacity — and passes whenever it is
resizable, again for every capacity: no minimum capacity is enforced on the
variable-length data buffer itself. -/
theorem varlen_requires_resizable_data_buffer :
    ∀ n b0 b1 b2 rest,
      BytesForBits n ≤ b0.capacity →
      BytesForBits ((n + 1) * 32) ≤ b1.capacity →
      (b2.resizable = false →
        ValidateArrayDataCapacity (b0 :: b1 :: b2 :: rest) .binaryLike n =
          some (.error
            "data buffer for varlen output vectors must be resizable")) ∧
      (b2.resizable = true →
        ValidateArrayDataCapacity (b0 :: b1 :: b2 :: rest) .binaryLike n =
          some (.ok ())) := by
  intro n b0 b1 b2 rest h0 h1
  constructor <;> intro hres <;>
    simp [ValidateArrayDataCapacity, ArrowType.isBinaryLike, hres,
      Nat.not_lt.mpr h0, Nat.not_lt.mpr h1]

/-- C8 witness: a zero-capacity but non-resizable data buffer for a one-row
binary column fails, even though every capacity bound is satisfied. -/
theorem varlen_requires_resizable_data_buffer_witness :
    ValidateArrayDataCapacity [⟨1, false⟩, ⟨8, false⟩, ⟨0, false⟩]
      .binaryLike 1 =
      some (.error "data buffer for varlen output vectors must be resizable") :=
  (varlen_requires_resizable_data_buffer 1 ⟨1, false⟩ ⟨8, false⟩ ⟨0, false⟩ []
    (by decide) (by decide)).1 rfl

/-- C10: for a variable-length output field with exactly two supplied
buffers, capacity validation passes the minimum-two-buffers guard (the
length is not below 2) and then reaches the resizability check's access to
buffer index 2, which is out of bounds for the two-element buffer vector —
in the model, the unchecked access surfaces as the undefined result `none`. -/
theorem varlen_two_buffers_out_of_bounds :
    ValidateArrayDataCapacity [⟨100, false⟩, ⟨100, false⟩] .binaryLike 1 =
      none ∧
    ¬ (([⟨100, false⟩, ⟨100, false⟩] : List Buffer).length < 2) :=
  ⟨rfl, by decide⟩

end GandivaProjector
